import Mathlib

/-!
Verification development for the ck-render control plane
(`lib/fly/client.ts`, `lib/fly/ssh.ts`, `lib/render/deploy.ts` and the Fly
deployment orchestrator).  The TypeScript source is shallowly embedded:
pure string manipulation becomes Lean string functions, fallible network
and subprocess calls become `Except String` valued oracles supplied as
arguments (indexed by invocation number where the number of calls
matters), and the relational store is threaded explicitly as a record
holding the one `Instance` row of the user under consideration together
with the append-only `DeploymentLog` list.  Database reads and writes are
modelled as reliable; the fallible steps are the provider API, subprocess
and HTTP calls, which is where the specification locates every failure
mode it describes.
-/

/-! ## Command proxy: `lib/fly/ssh.ts` -/

/-- Character-list membership test used by the embeddings below;
`listContains l sub` is the translation of the JavaScript
`String.prototype.includes` call on the underlying character lists:
it decides whether `sub` occurs contiguously inside `l`. -/
def listContains (l sub : List Char) : Bool :=
  match l with
  | [] => sub.isEmpty
  | _ :: t => sub.isPrefixOf l || listContains t sub

/-- Function `stringContains s sub` embeds the JavaScript includes call
(case-sensitive contiguous substring test). -/
def stringContains (s sub : String) : Bool :=
  listContains s.data sub.data

/-- The substring property, stated independently of the executable test:
`sub` occurs in `s` exactly when `s` factors as `pre ++ sub ++ post`. -/
def OccursIn (sub s : String) : Prop :=
  ∃ pre post : String, s = pre ++ sub ++ post

/-- Result record of `approveDevice` in `lib/fly/ssh.ts`. -/
structure ApproveResult where
  success : Bool
  message : String
deriving Repr, DecidableEq

/-- Embeds `approveDevice` from `lib/fly/ssh.ts` (lines 102-117), given the
`stdout`/`stderr` pair produced by the approve sub-command: the source
computes `success` as stderr containing neither "error" nor "failed",
and `message = stdout + stderr`. -/
def approveDevice (stdout stderr : String) : ApproveResult :=
  { success := !(stringContains stderr "error") && !(stringContains stderr "failed")
    message := stdout ++ stderr }

/-- One pending-device record assembled by the fallback parser of
`listPendingDevices` in `lib/fly/ssh.ts`; each field mirrors a JavaScript
object property that may be left unset (`none`). -/
structure PendingDevice where
  requestId : Option String
  channel : Option String
  identifier : Option String
  timestamp : Option String
deriving Repr, DecidableEq

/-- The empty accumulator object `{}` of the fallback parser. -/
def PendingDevice.empty : PendingDevice :=
  { requestId := none, channel := none, identifier := none, timestamp := none }

/-- Splitting a character list at every occurrence of a separator
character, keeping empty segments — the semantics of the JavaScript
`String.prototype.split` with a one-character separator. -/
def splitOnCharList (sep : Char) : List Char → List (List Char)
  | [] => [[]]
  | c :: t =>
    let r := splitOnCharList sep t
    if c = sep then [] :: r
    else
      match r with
      | [] => [[c]]
      | h :: t2 => (c :: h) :: t2

/-- The JavaScript `s.split(sep)` for a one-character separator. -/
def jsSplit (s : String) (sep : Char) : List String :=
  (splitOnCharList sep s.data).map (fun l => ⟨l⟩)

/-- The JavaScript `s.startsWith(pre)`. -/
def jsStartsWith (s pre : String) : Bool :=
  pre.data.isPrefixOf s.data

/-- The JavaScript `s.trim()`: strip leading and trailing whitespace. -/
def jsTrim (s : String) : String :=
  ⟨((s.data.dropWhile Char.isWhitespace).reverse.dropWhile
      Char.isWhitespace).reverse⟩

/-- Embeds the JavaScript split-take-trim of the fallback parser: split
the line on every colon, take element 1 when present, trim. -/
def splitVal (line : String) : Option String :=
  ((jsSplit line ':').get? 1).map jsTrim

/-- Embeds the JavaScript truthiness test `if (currentDevice.requestId)`
guarding each flush of the accumulator (unset and empty string are falsy). -/
def flushReady (d : PendingDevice) : Bool :=
  match d.requestId with
  | some r => !r.isEmpty
  | none => false

/-- One iteration of the `for (const line of lines)` loop of the fallback
parser in `listPendingDevices` (`lib/fly/ssh.ts` lines 75-89). -/
def devicesStep (acc : List PendingDevice × PendingDevice) (line : String) :
    List PendingDevice × PendingDevice :=
  let devs := acc.1
  let cur := acc.2
  if jsStartsWith line "Request ID:" then
    let devs2 := if flushReady cur then devs ++ [cur] else devs
    let cur2 := if flushReady cur then PendingDevice.empty else cur
    (devs2, { cur2 with requestId := splitVal line })
  else if jsStartsWith line "Channel:" then
    (devs, { cur with channel := splitVal line })
  else if jsStartsWith line "Identifier:" then
    (devs, { cur with identifier := splitVal line })
  else if jsStartsWith line "Timestamp:" then
    (devs, { cur with timestamp := splitVal line })
  else
    (devs, cur)

/-- Embeds the non-JSON fallback parser of `listPendingDevices`
(`lib/fly/ssh.ts` lines 70-95): split stdout on newlines, fold the
line-labelled accumulator over the lines, and flush the trailing
accumulator when its request id is truthy. -/
def parsePendingDevicesFallback (stdout : String) : List PendingDevice :=
  let folded := (jsSplit stdout (Char.ofNat 10)).foldl devicesStep ([], PendingDevice.empty)
  if flushReady folded.2 then folded.1 ++ [folded.2] else folded.1

/-- The blacklist of the character class in
the replace-by-empty regex character class of `executeOpenClawCommand`
(`lib/fly/ssh.ts` line 254).  The backtick is written by code point. -/
def openClawBadChars : List Char :=
  [';', '&', '|', Char.ofNat 96, '$', '(', ')']

/-- Embeds the sanitisation in `executeOpenClawCommand`: the global
replace-by-empty of the character class deletes every occurrence of each
blacklisted character and keeps everything else in order. -/
def sanitizeCommand (command : String) : String :=
  ⟨command.data.filter (fun c => !(openClawBadChars.contains c))⟩

/-- The command string that `executeOpenClawCommand` (`lib/fly/ssh.ts`
lines 249-257) forwards to `executeSSHCommand`: the fixed `openclaw `
prefix followed by the sanitised user command. -/
def executeOpenClawForwarded (command : String) : String :=
  "openclaw " ++ sanitizeCommand command

/-! ## Fly client helpers: `lib/fly/client.ts` -/

/-- Embeds `getMachineLogs` (`lib/fly/client.ts` lines 357-374) as a
function of the outcome of the logs API request: a thrown request is
caught and replaced by a fixed fallback string, and a missing or empty
`logs` field (both falsy in the JavaScript or-default on `logs.logs`) is
replaced by the fixed default. -/
def getMachineLogs (resp : Except String (Option String)) : String :=
  match resp with
  | .error _ => "Failed to fetch logs. Use flyctl logs instead."
  | .ok logsField =>
    match logsField with
    | none => "No logs available"
    | some s => if s.isEmpty then "No logs available" else s

/-- Embeds the polling loop of `waitForMachineState` (`lib/fly/client.ts`
lines 327-354).  `states n` is the machine state observed by the n-th
`getMachine` call; with a 3000 ms sleep separating polls, poll `n`
happens at elapsed time `n * 3000`, and the `while` guard admits it
exactly when `n * 3000 < timeoutMs`.  Inside the loop the target-equality
test precedes the terminal-failure test, as in the source. -/
def waitForMachineStateFrom (states : Nat → String) (targetState : String)
    (timeoutMs : Nat) (n : Nat) : Except String Unit :=
  if h : n * 3000 < timeoutMs then
    if states n = targetState then
      .ok ()
    else if states n = "failed" || states n = "destroyed" then
      .error ("Machine entered terminal state: " ++ states n)
    else
      waitForMachineStateFrom states targetState timeoutMs (n + 1)
  else
    .error ("Timeout waiting for machine to reach state: " ++ targetState)
termination_by timeoutMs - n * 3000
decreasing_by omega

/-- The full `waitForMachineState`: polling starts at elapsed time zero. -/
def waitForMachineState (states : Nat → String) (targetState : String)
    (timeoutMs : Nat) : Except String Unit :=
  waitForMachineStateFrom states targetState timeoutMs 0

/-! ## Render client polling: `lib/render/client.ts` -/

/-- Embeds the polling loop of `RenderClient.waitForDeploy`
(`lib/render/client.ts`): `statuses n` is the deploy status returned by
the n-th `getDeploy` call; polls are 5000 ms apart, the target status is
the literal `live`, and `build_failed`/`deactivated` raise immediately. -/
def waitForDeployFrom (statuses : Nat → String) (timeoutMs : Nat) (n : Nat) :
    Except String Unit :=
  if h : n * 5000 < timeoutMs then
    if statuses n = "live" then
      .ok ()
    else if statuses n = "build_failed" || statuses n = "deactivated" then
      .error ("Deployment failed with status: " ++ statuses n)
    else
      waitForDeployFrom statuses timeoutMs (n + 1)
  else
    .error "Deployment timeout (5 minutes)"
termination_by timeoutMs - n * 5000
decreasing_by omega

/-- The full `waitForDeploy`: polling starts at elapsed time zero. -/
def waitForDeploy (statuses : Nat → String) (timeoutMs : Nat) :
    Except String Unit :=
  waitForDeployFrom statuses timeoutMs 0

/-! ## Data model: the `Instance` row and the `DeploymentLog` table -/

/-- The `InstanceStatus` enumeration of the Prisma schema. -/
inductive InstanceStatus
  | DEPLOYING
  | RUNNING
  | STOPPED
  | RESTARTING
  | ERROR
deriving Repr, DecidableEq

/-- The `Instance` row of the user under consideration (the schema keys it
uniquely by user id).  `containerId` stores the provider resource id
(machine id on Fly, service id on Render) and `containerName` the app or
service name; both are nullable. -/
structure InstanceRow where
  id : Nat
  userId : String
  containerId : Option String
  containerName : Option String
  port : Nat
  status : InstanceStatus
  accessUrl : Option String
  serviceUrl : Option String
  gatewayToken : Option String
  lastHealthCheck : Option Nat
deriving Repr, DecidableEq

/-- One `DeploymentLog` row as written by the `logDeployment` helper. -/
structure DeploymentLog where
  instanceId : Nat
  action : String
  status : String
  message : String
  error : Option String
deriving Repr, DecidableEq

/-- The slice of the relational store these modules touch: the single
`Instance` row of the user under consideration (or `none`) and the
append-only `DeploymentLog` list. -/
structure DB where
  inst : Option InstanceRow
  logs : List DeploymentLog
deriving Repr, DecidableEq

/-- The row update `prisma.instance.update` on the current row. -/
def DB.updateInst (db : DB) (f : InstanceRow → InstanceRow) : DB :=
  { db with inst := db.inst.map f }

/-- The log append `prisma.deploymentLog.create` (the `logDeployment`
helper). -/
def DB.addLog (db : DB) (l : DeploymentLog) : DB :=
  { db with logs := db.logs ++ [l] }

/-- Embeds the JavaScript truthiness test applied to a nullable string
column (`!instance.containerId`): null and the empty string are falsy. -/
def optStrFalsy : Option String → Bool
  | none => true
  | some s => s.isEmpty

/-! ## Fly deployment orchestrator (`deployInstance` of the Fly module) -/

/-- Outcomes of the effectful steps of the Fly `deployInstance`.  Each
fallible call is an oracle indexed by its invocation number (the source
invokes each one at a fixed program point, so only index 0 is consulted;
the index makes re-invocation observable).  `healthProbe` returns
`.ok b` when the `/health` fetch returned a response with `ok = b` and
`.error` when the fetch itself threw. -/
structure FlyEnv where
  cleanupOk : Bool
  verifyAccess : Nat → Except String Unit
  createApp : Nat → Except String Unit
  setSecrets : Nat → Except String Unit
  createMachine : Nat → Except String String
  waitStarted : Nat → Except String Unit
  allocateIp : Nat → Except String Unit
  healthProbe : Nat → Except String Bool
  gatewayToken : String
  nowStr : String
  port : Nat
  newId : Nat

/-- The generated Fly app name
`openclaw-${userId.slice(0, 8)}-${Date.now().toString(36)}`. -/
def flyAppName (userId nowStr : String) : String :=
  "openclaw-" ++ userId.take 8 ++ "-" ++ nowStr

/-- The catch handler of the Fly `deployInstance` (lines 659-670 of the
combined client module): set the row status to `ERROR` and append a
`FAILED` deployment-log row carrying the error message. -/
def flyFailState (db : DB) (instId : Nat) (m : String) : DB :=
  (db.updateInst (fun i => { i with status := .ERROR })).addLog
    ⟨instId, "DEPLOY", "FAILED", "Deployment failed", some m⟩

/-- The result record of the Fly `deployInstance`. -/
structure FlyDeploymentResult where
  instanceId : Nat
  machineId : String
  appName : String
  port : Nat
  accessUrl : String
  status : String
deriving Repr, DecidableEq

/-- Cleanup and core of the Fly `deployInstance(userId, config)` (lines
461-671 of the combined client module), as state transformers on `DB`.
Cleanup of a pre-existing row either fully succeeds (`cleanupOk`, row
deleted) or is swallowed leaving the row in place; a row that survives
cleanup makes the placeholder `prisma.instance.create` violate the
unique `userId` constraint, which is thrown outside the `try` block.
Inside the `try`,
the provider steps run in source order with their `IN_PROGRESS` log
lines; a health-probe failure is caught locally and only selects the
final status, while every other failure jumps to `flyFailState` and
re-raises with the `Deployment failed: ` prefix.  The cleanup step of
the source (best-effort deletion of the previous machines, app and row,
all errors swallowed) either completes, deleting the row, or leaves the
row in place. -/
def flyCleanup (cleanupOk : Bool) (db : DB) : DB :=
  match db.inst with
  | some _ => if cleanupOk then { db with inst := none } else db
  | none => db

/-- The body of the Fly `deployInstance` after the cleanup step. -/
def deployInstanceFlyCore (env : FlyEnv) (userId : String) (db1 : DB) :
    DB × Except String FlyDeploymentResult :=
  match db1.inst with
  | some _ =>
    (db1, .error "Unique constraint failed on the fields: (userId)")
  | none =>
    let appName := flyAppName userId env.nowStr
    let inst0 : InstanceRow :=
      { id := env.newId, userId := userId, containerId := none,
        containerName := some appName, port := env.port,
        status := .DEPLOYING, accessUrl := none, serviceUrl := none,
        gatewayToken := none, lastHealthCheck := none }
    let db2 : DB :=
      { inst := some inst0,
        logs := db1.logs ++
          [⟨env.newId, "DEPLOY", "IN_PROGRESS", "Creating Fly.io app...", none⟩] }
    match env.verifyAccess 0 with
    | .error m => (flyFailState db2 env.newId m, .error ("Deployment failed: " ++ m))
    | .ok _ =>
    match env.createApp 0 with
    | .error m => (flyFailState db2 env.newId m, .error ("Deployment failed: " ++ m))
    | .ok _ =>
    match env.setSecrets 0 with
    | .error m => (flyFailState db2 env.newId m, .error ("Deployment failed: " ++ m))
    | .ok _ =>
    let db3 := db2.updateInst (fun i => { i with gatewayToken := some env.gatewayToken })
    let db4 := db3.addLog
      ⟨env.newId, "DEPLOY", "IN_PROGRESS", "Creating Fly.io machine...", none⟩
    match env.createMachine 0 with
    | .error m => (flyFailState db4 env.newId m, .error ("Deployment failed: " ++ m))
    | .ok machineId =>
    let db5 := db4.updateInst (fun i => { i with containerId := some machineId })
    let db6 := db5.addLog
      ⟨env.newId, "DEPLOY", "IN_PROGRESS", "Waiting for machine to start...", none⟩
    match env.waitStarted 0 with
    | .error m => (flyFailState db6 env.newId m, .error ("Deployment failed: " ++ m))
    | .ok _ =>
    let db7 := db6.addLog
      ⟨env.newId, "DEPLOY", "IN_PROGRESS", "Allocating public IP...", none⟩
    match env.allocateIp 0 with
    | .error m => (flyFailState db7 env.newId m, .error ("Deployment failed: " ++ m))
    | .ok _ =>
    let accessUrl := "https://" ++ appName ++ ".fly.dev"
    let db8 := db7.addLog
      ⟨env.newId, "DEPLOY", "IN_PROGRESS", "Verifying OpenClaw Gateway...", none⟩
    let healthOk : Bool :=
      match env.healthProbe 0 with
      | .ok b => b
      | .error _ => false
    let db9 := db8.updateInst (fun i =>
      { i with status := if healthOk then .RUNNING else .ERROR,
               accessUrl := some accessUrl, containerId := some machineId })
    let db10 := db9.addLog
      ⟨env.newId, "DEPLOY", (if healthOk then "SUCCESS" else "PARTIAL"),
        (if healthOk then "Deployment completed"
         else "Deployment completed but health check failed"), none⟩
    (db10, .ok { instanceId := env.newId, machineId := machineId,
                 appName := appName, port := env.port, accessUrl := accessUrl,
                 status := if healthOk then "RUNNING" else "ERROR" })

/-- Embeds the Fly `deployInstance(userId, config)` (lines 461-671 of
the combined client module): the cleanup step followed by the core. -/
def deployInstanceFly (env : FlyEnv) (userId : String) (db : DB) :
    DB × Except String FlyDeploymentResult :=
  deployInstanceFlyCore env userId (flyCleanup env.cleanupOk db)

/-- The first failure, if any, among the steps of the Fly `deployInstance`
whose exceptions reach the catch handler, in source order.  The health
probe is deliberately absent: its failure is caught locally. -/
def firstFailureFly (env : FlyEnv) : Option String :=
  match env.verifyAccess 0 with
  | .error m => some m
  | .ok _ =>
  match env.createApp 0 with
  | .error m => some m
  | .ok _ =>
  match env.setSecrets 0 with
  | .error m => some m
  | .ok _ =>
  match env.createMachine 0 with
  | .error m => some m
  | .ok _ =>
  match env.waitStarted 0 with
  | .error m => some m
  | .ok _ =>
  match env.allocateIp 0 with
  | .error m => some m
  | .ok _ => none

/-- Replaces every step oracle of a `FlyEnv` by the constant function
returning its first-invocation outcome.  The deployment function is
proved invariant under this replacement: outcomes of second and later
invocations can never influence it, so no step is retried. -/
def FlyEnv.firstCallOnly (env : FlyEnv) : FlyEnv :=
  { env with
    verifyAccess := fun _ => env.verifyAccess 0,
    createApp := fun _ => env.createApp 0,
    setSecrets := fun _ => env.setSecrets 0,
    createMachine := fun _ => env.createMachine 0,
    waitStarted := fun _ => env.waitStarted 0,
    allocateIp := fun _ => env.allocateIp 0,
    healthProbe := fun _ => env.healthProbe 0 }

/-! ## Render deployment orchestrator (`lib/render/deploy.ts`) -/

/-- Outcomes of the effectful steps of the Render `deployInstance`.
`createService` yields the service id; `getService n` yields the
optional `serviceDetails.url` seen by the n-th poll of the URL loop
(`.error` when `getService` threw, which the outer catch handles);
`healthProbe` is as in `FlyEnv`. -/
structure RenderEnv where
  cleanupOk : Bool
  createService : Nat → Except String String
  getService : Nat → Except String (Option String)
  healthProbe : Nat → Except String Bool
  gatewayToken : String
  port : Nat
  newId : Nat

/-- The generated Render service name `openclaw-${userId.slice(0, 8)}`. -/
def renderServiceName (userId : String) : String :=
  "openclaw-" ++ userId.take 8

/-- Embeds the URL polling loop of the Render `deployInstance`
(`lib/render/deploy.ts` lines 111-127): up to `fuel` (initially 60)
attempts, each calling `getService`; a thrown call aborts the whole
deployment, a present URL ends the loop, and exhaustion leaves the URL
undetermined (`.ok none`). -/
def renderPollUrl (getSvc : Nat → Except String (Option String))
    (attempt fuel : Nat) : Except String (Option String) :=
  match fuel with
  | 0 => .ok none
  | fuel' + 1 =>
    match getSvc attempt with
    | .error m => .error m
    | .ok (some url) => .ok (some url)
    | .ok none => renderPollUrl getSvc (attempt + 1) fuel'

/-- The catch handler of the Render `deployInstance`
(`lib/render/deploy.ts` lines 194-205), identical in shape to the Fly
one. -/
def renderFailState (db : DB) (instId : Nat) (m : String) : DB :=
  (db.updateInst (fun i => { i with status := .ERROR })).addLog
    ⟨instId, "DEPLOY", "FAILED", "Deployment failed", some m⟩

/-- The result record of the Render `deployInstance`. -/
structure RenderDeploymentResult where
  instanceId : Nat
  serviceId : String
  serviceName : String
  port : Nat
  accessUrl : String
  shellUrl : String
  status : String
deriving Repr, DecidableEq

/-- Embeds the Render `deployInstance(userId, config)`
(`lib/render/deploy.ts` lines 23-206) as a state transformer on `DB`,
with the same unique-constraint behaviour as the Fly
variant (its cleanup step is applied by `deployInstanceRender`).  After `createService` succeeds the service id and gateway
token are persisted, the URL loop polls up to 60 times falling back to
`https://<name>.onrender.com`, the health probe is caught locally, and
the final row update also stores the dashboard shell URL in the
`serviceUrl` column. -/
def deployInstanceRenderCore (env : RenderEnv) (userId : String) (db1 : DB) :
    DB × Except String RenderDeploymentResult :=
  match db1.inst with
  | some _ =>
    (db1, .error "Unique constraint failed on the fields: (userId)")
  | none =>
    let serviceName := renderServiceName userId
    let inst0 : InstanceRow :=
      { id := env.newId, userId := userId, containerId := none,
        containerName := some serviceName, port := env.port,
        status := .DEPLOYING, accessUrl := none, serviceUrl := none,
        gatewayToken := none, lastHealthCheck := none }
    let db2 : DB :=
      { inst := some inst0,
        logs := db1.logs ++
          [⟨env.newId, "DEPLOY", "IN_PROGRESS", "Creating Render service...", none⟩] }
    let db3 := db2.addLog
      ⟨env.newId, "DEPLOY", "IN_PROGRESS", "Creating Render service...", none⟩
    match env.createService 0 with
    | .error m => (renderFailState db3 env.newId m, .error ("Deployment failed: " ++ m))
    | .ok serviceId =>
    let db4 := db3.updateInst (fun i =>
      { i with containerId := some serviceId, gatewayToken := some env.gatewayToken })
    let db5 := db4.addLog
      ⟨env.newId, "DEPLOY", "IN_PROGRESS", "Waiting for deployment...", none⟩
    match renderPollUrl env.getService 0 60 with
    | .error m => (renderFailState db5 env.newId m, .error ("Deployment failed: " ++ m))
    | .ok urlOpt =>
    let serviceUrl :=
      match urlOpt with
      | some u => u
      | none => "https://" ++ serviceName ++ ".onrender.com"
    let accessUrl := serviceUrl
    let shellUrl := "https://dashboard.render.com/web/" ++ serviceId ++ "/shell"
    let db6 := db5.addLog
      ⟨env.newId, "DEPLOY", "IN_PROGRESS", "Verifying OpenClaw Gateway...", none⟩
    let healthOk : Bool :=
      match env.healthProbe 0 with
      | .ok b => b
      | .error _ => false
    let db7 := db6.updateInst (fun i =>
      { i with status := if healthOk then .RUNNING else .ERROR,
               accessUrl := some accessUrl, serviceUrl := some shellUrl,
               containerId := some serviceId })
    let db8 := db7.addLog
      ⟨env.newId, "DEPLOY", (if healthOk then "SUCCESS" else "PARTIAL"),
        (if healthOk then "Deployment completed"
         else "Deployment completed but health check failed"), none⟩
    (db8, .ok { instanceId := env.newId, serviceId := serviceId,
                serviceName := serviceName, port := env.port,
                accessUrl := accessUrl, shellUrl := shellUrl,
                status := if healthOk then "RUNNING" else "ERROR" })

/-- Embeds the Render `deployInstance(userId, config)`
(`lib/render/deploy.ts` lines 23-206): the cleanup step (same shape as
the Fly one) followed by the core. -/
def deployInstanceRender (env : RenderEnv) (userId : String) (db : DB) :
    DB × Except String RenderDeploymentResult :=
  deployInstanceRenderCore env userId (flyCleanup env.cleanupOk db)

/-- The first failure, if any, among the steps of the Render
`deployInstance` whose exceptions reach the catch handler: the service
creation, then any thrown poll of the URL loop.  The health probe is
absent: its failure is caught locally. -/
def firstFailureRender (env : RenderEnv) : Option String :=
  match env.createService 0 with
  | .error m => some m
  | .ok _ =>
  match renderPollUrl env.getService 0 60 with
  | .error m => some m
  | .ok _ => none

/-- Replaces the linear step oracles of a `RenderEnv` by constants
returning their first-invocation outcome (the URL poll loop is by design
repeated, so `getService` is left untouched).  Invariance of the
deployment under this replacement shows no linear step is retried. -/
def RenderEnv.firstCallOnly (env : RenderEnv) : RenderEnv :=
  { env with
    createService := fun _ => env.createService 0,
    healthProbe := fun _ => env.healthProbe 0 }

/-! ## Lifecycle operations (stop / start / restart / health / logs) -/

/-- Embeds the Fly `stopInstance` (lines 673-690 of the combined client
module): look up the row, require both identifiers to be truthy, invoke
`stopMachine` (whose outcome is `providerStop`), set status `STOPPED`,
append a `SUCCESS` log. -/
def stopInstanceFly (instanceId : Nat) (providerStop : Except String Unit)
    (db : DB) : DB × Except String Unit :=
  match db.inst with
  | none => (db, .error "Instance not found")
  | some i =>
    if i.id ≠ instanceId then (db, .error "Instance not found")
    else if optStrFalsy i.containerId || optStrFalsy i.containerName then
      (db, .error "Instance missing Fly.io identifiers")
    else
      match providerStop with
      | .error m => (db, .error m)
      | .ok _ =>
        ((db.updateInst (fun j => { j with status := .STOPPED })).addLog
          ⟨i.id, "STOP", "SUCCESS", "Instance stopped", none⟩, .ok ())

/-- Embeds the Fly `startInstance` (lines 692-709). -/
def startInstanceFly (instanceId : Nat) (providerStart : Except String Unit)
    (db : DB) : DB × Except String Unit :=
  match db.inst with
  | none => (db, .error "Instance not found")
  | some i =>
    if i.id ≠ instanceId then (db, .error "Instance not found")
    else if optStrFalsy i.containerId || optStrFalsy i.containerName then
      (db, .error "Instance missing Fly.io identifiers")
    else
      match providerStart with
      | .error m => (db, .error m)
      | .ok _ =>
        ((db.updateInst (fun j => { j with status := .RUNNING })).addLog
          ⟨i.id, "START", "SUCCESS", "Instance started", none⟩, .ok ())

/-- Embeds the Fly `restartInstance` (lines 711-733): after the
identifier check the row is first set to `RESTARTING`, then
`restartMachine` runs, then the row is set to `RUNNING`. -/
def restartInstanceFly (instanceId : Nat) (providerRestart : Except String Unit)
    (db : DB) : DB × Except String Unit :=
  match db.inst with
  | none => (db, .error "Instance not found")
  | some i =>
    if i.id ≠ instanceId then (db, .error "Instance not found")
    else if optStrFalsy i.containerId || optStrFalsy i.containerName then
      (db, .error "Instance missing Fly.io identifiers")
    else
      let dbR := db.updateInst (fun j => { j with status := .RESTARTING })
      match providerRestart with
      | .error m => (dbR, .error m)
      | .ok _ =>
        ((dbR.updateInst (fun j => { j with status := .RUNNING })).addLog
          ⟨i.id, "RESTART", "SUCCESS", "Instance restarted", none⟩, .ok ())

/-- Embeds the Render `stopInstance` (`lib/render/deploy.ts` lines
208-225): only `containerId` (the service id) is required. -/
def stopInstanceRender (instanceId : Nat) (providerSuspend : Except String Unit)
    (db : DB) : DB × Except String Unit :=
  match db.inst with
  | none => (db, .error "Instance not found")
  | some i =>
    if i.id ≠ instanceId then (db, .error "Instance not found")
    else if optStrFalsy i.containerId then
      (db, .error "Instance missing Render service ID")
    else
      match providerSuspend with
      | .error m => (db, .error m)
      | .ok _ =>
        ((db.updateInst (fun j => { j with status := .STOPPED })).addLog
          ⟨i.id, "STOP", "SUCCESS", "Instance stopped", none⟩, .ok ())

/-- Embeds the Render `startInstance` (lines 227-244). -/
def startInstanceRender (instanceId : Nat) (providerResume : Except String Unit)
    (db : DB) : DB × Except String Unit :=
  match db.inst with
  | none => (db, .error "Instance not found")
  | some i =>
    if i.id ≠ instanceId then (db, .error "Instance not found")
    else if optStrFalsy i.containerId then
      (db, .error "Instance missing Render service ID")
    else
      match providerResume with
      | .error m => (db, .error m)
      | .ok _ =>
        ((db.updateInst (fun j => { j with status := .RUNNING })).addLog
          ⟨i.id, "START", "SUCCESS", "Instance started", none⟩, .ok ())

/-- Embeds the Render `restartInstance` (lines 246-268). -/
def restartInstanceRender (instanceId : Nat) (providerRestart : Except String Unit)
    (db : DB) : DB × Except String Unit :=
  match db.inst with
  | none => (db, .error "Instance not found")
  | some i =>
    if i.id ≠ instanceId then (db, .error "Instance not found")
    else if optStrFalsy i.containerId then
      (db, .error "Instance missing Render service ID")
    else
      let dbR := db.updateInst (fun j => { j with status := .RESTARTING })
      match providerRestart with
      | .error m => (dbR, .error m)
      | .ok _ =>
        ((dbR.updateInst (fun j => { j with status := .RUNNING })).addLog
          ⟨i.id, "RESTART", "SUCCESS", "Instance restarted", none⟩, .ok ())

/-- Embeds the Fly `checkInstanceHealth` (lines 747-774): the whole body
sits in a try/catch returning `false`, so the embedding is a total
function.  `getMachine` yields the machine state string or a thrown
error; `now` is the `new Date()` of the health-check write. -/
def checkInstanceHealthFly (instanceId : Nat)
    (getMachine : Except String String) (now : Nat) (db : DB) : DB × Bool :=
  match db.inst with
  | none => (db, false)
  | some i =>
    if i.id ≠ instanceId then (db, false)
    else if optStrFalsy i.containerId || optStrFalsy i.containerName then
      (db, false)
    else
      match getMachine with
      | .error _ => (db, false)
      | .ok state =>
        let isHealthy := state = "started" || state = "running"
        ((db.updateInst (fun j =>
          { j with lastHealthCheck := some now,
                   status := if isHealthy then .RUNNING else .ERROR })),
         isHealthy)

/-- Embeds the Render `checkInstanceHealth` (`lib/render/deploy.ts`
lines 279-309): `getService` yields the pair of the `suspended` field
and the optional `serviceDetails.url`; healthy means not suspended and a
URL is present. -/
def checkInstanceHealthRender (instanceId : Nat)
    (getService : Except String (String × Option String)) (now : Nat)
    (db : DB) : DB × Bool :=
  match db.inst with
  | none => (db, false)
  | some i =>
    if i.id ≠ instanceId then (db, false)
    else if optStrFalsy i.containerId then
      (db, false)
    else
      match getService with
      | .error _ => (db, false)
      | .ok sd =>
        let isHealthy := sd.1 = "not_suspended" && sd.2.isSome
        ((db.updateInst (fun j =>
          { j with lastHealthCheck := some now,
                   status := if isHealthy then .RUNNING else .ERROR })),
         isHealthy)

/-! ## Concrete sample inputs used by counterexamples and witnesses -/

/-- A malformed (non-JSON) device listing in exactly the format documented
inside `listPendingDevices` itself, two blocks with ISO timestamps. -/
def devicesCexStdout : String :=
  "Request ID: abc123\nChannel: whatsapp\nIdentifier: +1234567890\n" ++
  "Timestamp: 2026-02-06T10:30:00Z\nRequest ID: def456\nChannel: telegram\n" ++
  "Identifier: +1987654321\nTimestamp: 2026-02-07T11:45:00Z"

/-- A two-block device listing whose values contain no colon. -/
def devicesWitnessStdout : String :=
  "Request ID: abc123\nChannel: whatsapp\nIdentifier: +1234567890\n" ++
  "Timestamp: day1\nRequest ID: def456\nChannel: telegram\n" ++
  "Identifier: +1987654321\nTimestamp: day2"

/-- An `Instance` row holding a Render service id but no service name. -/
def rowServiceIdOnly : InstanceRow :=
  { id := 1, userId := "user-0001", containerId := some "srv-123",
    containerName := none, port := 10001, status := .RUNNING,
    accessUrl := none, serviceUrl := none, gatewayToken := none,
    lastHealthCheck := none }

/-- The store holding only `rowServiceIdOnly`. -/
def dbServiceIdOnly : DB :=
  { inst := some rowServiceIdOnly, logs := [] }

/-- An `Instance` row with no provider identifiers at all. -/
def rowNoIds : InstanceRow :=
  { id := 2, userId := "user-0002", containerId := none,
    containerName := none, port := 10002, status := .STOPPED,
    accessUrl := none, serviceUrl := none, gatewayToken := none,
    lastHealthCheck := none }

/-- The store holding only `rowNoIds`. -/
def dbNoIds : DB :=
  { inst := some rowNoIds, logs := [] }

/-- An `Instance` row with both provider identifiers present. -/
def rowFullIds : InstanceRow :=
  { id := 3, userId := "user-0003", containerId := some "machine-9",
    containerName := some "openclaw-user-000-x1", port := 10003,
    status := .RUNNING, accessUrl := none, serviceUrl := none,
    gatewayToken := none, lastHealthCheck := none }

/-- The store holding only `rowFullIds`. -/
def dbFullIds : DB :=
  { inst := some rowFullIds, logs := [] }

/-- The empty store. -/
def emptyDb : DB :=
  { inst := none, logs := [] }

/-- A Fly deployment environment in which every step succeeds and the
health probe returns a 2xx response. -/
def flyEnvAllOk : FlyEnv :=
  { cleanupOk := true
    verifyAccess := fun _ => .ok ()
    createApp := fun _ => .ok ()
    setSecrets := fun _ => .ok ()
    createMachine := fun _ => .ok "machine-1"
    waitStarted := fun _ => .ok ()
    allocateIp := fun _ => .ok ()
    healthProbe := fun _ => .ok true
    gatewayToken := "tok-1", nowStr := "m3x9", port := 10010, newId := 41 }

/-- A Fly deployment environment whose machine creation throws. -/
def flyEnvMachineFails : FlyEnv :=
  { flyEnvAllOk with createMachine := fun _ => .error "machine boom" }

/-- A Fly deployment environment whose health probe throws. -/
def flyEnvProbeThrows : FlyEnv :=
  { flyEnvAllOk with healthProbe := fun _ => .error "fetch failed" }

/-- A Render deployment environment in which every step succeeds. -/
def renderEnvAllOk : RenderEnv :=
  { cleanupOk := true
    createService := fun _ => .ok "srv-1"
    getService := fun _ => .ok (some "https://openclaw-user-000.onrender.com")
    healthProbe := fun _ => .ok true
    gatewayToken := "tok-2", port := 10011, newId := 42 }

/-- A Render deployment environment whose service creation throws. -/
def renderEnvCreateFails : RenderEnv :=
  { renderEnvAllOk with createService := fun _ => .error "render boom" }

/-! ## Helper lemmas -/

/-- Correctness of `listContains`: it decides contiguous containment. -/
theorem listContains_iff_infix (l sub : List Char) :
    listContains l sub = true ↔ sub <:+: l := by
  induction l with
  | nil =>
    simp only [listContains, List.isEmpty_iff, List.infix_nil]
  | cons a t ih =>
    simp only [listContains, Bool.or_eq_true, List.isPrefixOf_iff_prefix, ih,
      List.infix_cons_iff]

/-- Correctness of `stringContains`: it decides the substring property
`OccursIn`. -/
theorem stringContains_iff_occursIn (s sub : String) :
    stringContains s sub = true ↔ OccursIn sub s := by
  rw [stringContains, listContains_iff_infix]
  constructor
  · rintro ⟨p, q, hpq⟩
    refine ⟨⟨p⟩, ⟨q⟩, String.ext ?_⟩
    rw [String.data_append, String.data_append]
    exact hpq.symm
  · rintro ⟨pre, post, hs⟩
    refine ⟨pre.data, post.data, ?_⟩
    rw [hs, String.data_append, String.data_append]

/-- C5 counterexample: with `stdout = "error"` and empty `stderr`,
`approveDevice` still declares success, although stdout contains the
literal substring `error` — so success is not equivalent to neither
stream containing `error` or `failed`. -/
theorem approveDevice_claim_cex :
    (approveDevice "error" "").success = true ∧ OccursIn "error" "error" := by
  refine ⟨by decide, "", "", ?_⟩
  simp

/-- C5 (amended): the success flag of `approveDevice` is true exactly when
`stderr` contains neither of the case-sensitive substrings `error` and
`failed`; stdout is not consulted. -/
theorem approveDevice_success_iff_stderr_clean (out err : String) :
    (approveDevice out err).success = true ↔
      ¬ OccursIn "error" err ∧ ¬ OccursIn "failed" err := by
  rw [← stringContains_iff_occursIn, ← stringContains_iff_occursIn]
  simp [approveDevice]

/-- C7: `executeOpenClawCommand` forwards `openclaw ` followed by the
command with every blacklisted shell metacharacter deleted: no
blacklisted character occurs in the forwarded string, and every other
character keeps its multiplicity. -/
theorem executeOpenClawCommand_strips_blacklist (command : String) (c : Char)
    (hc : c ∈ openClawBadChars) :
    c ∉ (executeOpenClawForwarded command).data ∧
    ∀ d : Char, d ∉ openClawBadChars →
      (executeOpenClawForwarded command).data.count d =
        "openclaw ".data.count d + command.data.count d := by
  have hdata : (executeOpenClawForwarded command).data =
      "openclaw ".data ++ command.data.filter
        (fun d => !(openClawBadChars.contains d)) := by
    rw [executeOpenClawForwarded, String.data_append]
    rfl
  constructor
  · intro hmem
    rw [hdata] at hmem
    rcases List.mem_append.mp hmem with h1 | h2
    · have : c ∉ "openclaw ".data := by
        fin_cases hc <;> decide
      exact this h1
    · have hp := (List.mem_filter.mp h2).2
      rw [Bool.not_eq_eq_eq_not, Bool.not_true] at hp
      have hnot : c ∉ openClawBadChars := by simpa using hp
      exact hnot hc
  · intro d hd
    rw [hdata, List.count_append]
    congr 1
    rw [List.count_filter]
    have : openClawBadChars.contains d = false := by
      rcases h : openClawBadChars.contains d with _ | _
      · rfl
      · exact absurd (by simpa using h) hd
    simp [this, hd]

/-- C7 witness: the blacklist hypothesis discharged at the semicolon, on a
command containing the literal `; rm -rf /`. -/
theorem executeOpenClawCommand_strips_blacklist_witness :
    (';' ∈ openClawBadChars) ∧
    ';' ∉ (executeOpenClawForwarded "ls; rm -rf /").data := by
  have h := executeOpenClawCommand_strips_blacklist "ls; rm -rf /" ';' (by decide)
  exact ⟨by decide, h.1⟩

/-- C10: `getMachineLogs` is total: a thrown logs request is replaced by
the fixed flyctl hint, a missing or empty `logs` field by the fixed
default, and a non-empty field is returned as is. -/
theorem getMachineLogs_never_throws :
    (∀ m, getMachineLogs (.error m) = "Failed to fetch logs. Use flyctl logs instead.") ∧
    getMachineLogs (.ok none) = "No logs available" ∧
    getMachineLogs (.ok (some "")) = "No logs available" ∧
    (∀ s, s ≠ "" → getMachineLogs (.ok (some s)) = s) := by
  refine ⟨fun m => rfl, rfl, rfl, fun s hs => ?_⟩
  have : s.isEmpty = false := by
    rcases h : s.isEmpty with _ | _
    · rfl
    · exact absurd ((String.isEmpty_iff s).mp h) hs
  simp [getMachineLogs, this]

/-- C10 witness: the non-empty hypothesis discharged on a concrete log. -/
theorem getMachineLogs_never_throws_witness :
    getMachineLogs (.error "http 500") = "Failed to fetch logs. Use flyctl logs instead." ∧
    getMachineLogs (.ok (some "boot ok")) = "boot ok" := by
  exact ⟨getMachineLogs_never_throws.1 "http 500",
    getMachineLogs_never_throws.2.2.2 "boot ok" (by decide)⟩

/-- If every poll admitted by the deadline sees a state that is neither
the target nor terminal, the Fly wait loop times out (stated from an
arbitrary starting poll, by induction on the remaining deadline). -/
theorem waitForMachineStateFrom_timeout (states : Nat → String)
    (target : String) (timeoutMs : Nat) :
    ∀ fuel n, timeoutMs ≤ n * 3000 + fuel * 3000 →
    (∀ j, n ≤ j → j * 3000 < timeoutMs →
      states j ≠ target ∧ states j ≠ "failed" ∧ states j ≠ "destroyed") →
    waitForMachineStateFrom states target timeoutMs n =
      .error ("Timeout waiting for machine to reach state: " ++ target) := by
  intro fuel
  induction fuel with
  | zero =>
    intro n hle _
    rw [waitForMachineStateFrom]
    rw [dif_neg (by omega)]
  | succ fuel ih =>
    intro n hle hfree
    rw [waitForMachineStateFrom]
    by_cases h : n * 3000 < timeoutMs
    · rw [dif_pos h]
      obtain ⟨h1, h2, h3⟩ := hfree n (Nat.le_refl n) h
      rw [if_neg h1, if_neg (by simp [h2, h3])]
      exact ih (n + 1) (by omega) (fun j hj => hfree j (by omega))
    · rw [dif_neg h]

/-- If the polls before poll `k` see neither the target nor a terminal
state and poll `k` is within the deadline, the loop started at 0 behaves
like the loop started at `k`. -/
theorem waitForMachineStateFrom_skip (states : Nat → String)
    (target : String) (timeoutMs : Nat) :
    ∀ d n, (n + d) * 3000 < timeoutMs →
    (∀ j, n ≤ j → j < n + d →
      states j ≠ target ∧ states j ≠ "failed" ∧ states j ≠ "destroyed") →
    waitForMachineStateFrom states target timeoutMs n =
      waitForMachineStateFrom states target timeoutMs (n + d) := by
  intro d
  induction d with
  | zero => intro n _ _; rfl
  | succ d ih =>
    intro n hk hfree
    obtain ⟨h1, h2, h3⟩ := hfree n (Nat.le_refl n) (by omega)
    rw [waitForMachineStateFrom, dif_pos (by omega), if_neg h1,
      if_neg (by simp [h2, h3])]
    have := ih (n + 1) (by omega) (fun j hj hj2 => hfree j (by omega) (by omega))
    rw [this]
    congr 1
    omega

/-- Render analogue of `waitForMachineStateFrom_timeout`. -/
theorem waitForDeployFrom_timeout (statuses : Nat → String) (timeoutMs : Nat) :
    ∀ fuel n, timeoutMs ≤ n * 5000 + fuel * 5000 →
    (∀ j, n ≤ j → j * 5000 < timeoutMs →
      statuses j ≠ "live" ∧ statuses j ≠ "build_failed" ∧ statuses j ≠ "deactivated") →
    waitForDeployFrom statuses timeoutMs n = .error "Deployment timeout (5 minutes)" := by
  intro fuel
  induction fuel with
  | zero =>
    intro n hle _
    rw [waitForDeployFrom, dif_neg (by omega)]
  | succ fuel ih =>
    intro n hle hfree
    rw [waitForDeployFrom]
    by_cases h : n * 5000 < timeoutMs
    · rw [dif_pos h]
      obtain ⟨h1, h2, h3⟩ := hfree n (Nat.le_refl n) h
      rw [if_neg h1, if_neg (by simp [h2, h3])]
      exact ih (n + 1) (by omega) (fun j hj => hfree j (by omega))
    · rw [dif_neg h]

/-- Render analogue of `waitForMachineStateFrom_skip`. -/
theorem waitForDeployFrom_skip (statuses : Nat → String) (timeoutMs : Nat) :
    ∀ d n, (n + d) * 5000 < timeoutMs →
    (∀ j, n ≤ j → j < n + d →
      statuses j ≠ "live" ∧ statuses j ≠ "build_failed" ∧ statuses j ≠ "deactivated") →
    waitForDeployFrom statuses timeoutMs n =
      waitForDeployFrom statuses timeoutMs (n + d) := by
  intro d
  induction d with
  | zero => intro n _ _; rfl
  | succ d ih =>
    intro n hk hfree
    obtain ⟨h1, h2, h3⟩ := hfree n (Nat.le_refl n) (by omega)
    rw [waitForDeployFrom, dif_pos (by omega), if_neg h1,
      if_neg (by simp [h2, h3])]
    have := ih (n + 1) (by omega) (fun j hj hj2 => hfree j (by omega) (by omega))
    rw [this]
    congr 1
    omega

/-- C3: the wait-for-state helpers raise a timeout error when no admitted
poll ever sees the target (nor a terminal state) within `timeoutMs`, and
raise the terminal-state error as soon as the first terminal failure
state is observed — for any deadline still open at that poll, so without
waiting out the deadline (Fly machines: `failed`/`destroyed`; Render
deploys: `build_failed`/`deactivated`, target fixed at `live`). -/
theorem waitForState_timeout_or_terminal :
    (∀ (states : Nat → String) (target : String) (timeoutMs : Nat),
      (∀ n, n * 3000 < timeoutMs →
        states n ≠ target ∧ states n ≠ "failed" ∧ states n ≠ "destroyed") →
      waitForMachineState states target timeoutMs =
        .error ("Timeout waiting for machine to reach state: " ++ target)) ∧
    (∀ (states : Nat → String) (target : String) (timeoutMs k : Nat),
      k * 3000 < timeoutMs →
      (∀ n < k, states n ≠ target ∧ states n ≠ "failed" ∧ states n ≠ "destroyed") →
      (states k = "failed" ∨ states k = "destroyed") →
      states k ≠ target →
      waitForMachineState states target timeoutMs =
        .error ("Machine entered terminal state: " ++ states k)) ∧
    (∀ (statuses : Nat → String) (timeoutMs : Nat),
      (∀ n, n * 5000 < timeoutMs →
        statuses n ≠ "live" ∧ statuses n ≠ "build_failed" ∧ statuses n ≠ "deactivated") →
      waitForDeploy statuses timeoutMs = .error "Deployment timeout (5 minutes)") ∧
    (∀ (statuses : Nat → String) (timeoutMs k : Nat),
      k * 5000 < timeoutMs →
      (∀ n < k, statuses n ≠ "live" ∧ statuses n ≠ "build_failed" ∧ statuses n ≠ "deactivated") →
      (statuses k = "build_failed" ∨ statuses k = "deactivated") →
      waitForDeploy statuses timeoutMs =
        .error ("Deployment failed with status: " ++ statuses k)) := by
  refine ⟨?_, ?_, ?_, ?_⟩
  · intro states target timeoutMs hfree
    exact waitForMachineStateFrom_timeout states target timeoutMs timeoutMs 0
      (by omega) (fun j _ hj => hfree j hj)
  · intro states target timeoutMs k hk hfree hterm hne
    have hskip := waitForMachineStateFrom_skip states target timeoutMs k 0
      (by omega) (fun j hj hj2 => hfree j (by omega))
    rw [Nat.zero_add] at hskip
    rw [waitForMachineState, hskip, waitForMachineStateFrom]
    rw [dif_pos (by omega), if_neg (by simpa using hne), if_pos]
    rcases hterm with h | h <;> simp [h]
  · intro statuses timeoutMs hfree
    exact waitForDeployFrom_timeout statuses timeoutMs timeoutMs 0
      (by omega) (fun j _ hj => hfree j hj)
  · intro statuses timeoutMs k hk hfree hterm
    have hne : statuses k ≠ "live" := by
      rcases hterm with h | h <;> rw [h] <;> decide
    have hskip := waitForDeployFrom_skip statuses timeoutMs k 0
      (by omega) (fun j hj hj2 => hfree j (by omega))
    rw [Nat.zero_add] at hskip
    rw [waitForDeploy, hskip, waitForDeployFrom]
    rw [dif_pos (by omega), if_neg (by simpa using hne), if_pos]
    rcases hterm with h | h <;> simp [h]

/-- C3 witness: a machine stuck in `starting` inside a 6000 ms deadline
times out; a machine observed `failed` on the very first poll of a
120000 ms deadline raises the terminal error at once; a Render deploy
stuck in `build_in_progress` inside a 10000 ms deadline times out; one
observed `build_failed` at poll 1 of a 300000 ms deadline raises the
terminal error. -/
theorem waitForState_timeout_or_terminal_witness :
    waitForMachineState (fun _ => "starting") "started" 6000 =
      .error "Timeout waiting for machine to reach state: started" ∧
    waitForMachineState (fun _ => "failed") "started" 120000 =
      .error "Machine entered terminal state: failed" ∧
    waitForDeploy (fun _ => "build_in_progress") 10000 =
      .error "Deployment timeout (5 minutes)" ∧
    waitForDeploy (fun n => if n = 0 then "created" else "build_failed") 300000 =
      .error "Deployment failed with status: build_failed" := by
  obtain ⟨h1, h2, h3, h4⟩ := waitForState_timeout_or_terminal
  refine ⟨?_, ?_, ?_, ?_⟩
  · refine h1 (fun _ => "starting") "started" 6000 ?_
    intro n hn
    refine ⟨?_, ?_, ?_⟩ <;> simp
  · exact h2 (fun _ => "failed") "started" 120000 0 (by decide)
      (fun n hn => absurd hn (by omega)) (Or.inl rfl) (by decide)
  · refine h3 (fun _ => "build_in_progress") 10000 ?_
    intro n hn
    refine ⟨?_, ?_, ?_⟩ <;> simp
  · have := h4 (fun n => if n = 0 then "created" else "build_failed") 300000 1
      (by omega) ?_ (by simp)
    · simpa using this
    · intro n hn
      have : n = 0 := by omega
      subst this
      refine ⟨?_, ?_, ?_⟩ <;> simp

/-- C9: because the target-equality test is evaluated before the
terminal-failure test, calling `waitForMachineState` with a target of
`failed` or `destroyed` returns successfully when the machine first
reaches that state within the deadline, instead of raising the
terminal-state error. -/
theorem waitForMachineState_terminal_target_returns_ok
    (states : Nat → String) (target : String) (timeoutMs k : Nat)
    (htar : target = "failed" ∨ target = "destroyed")
    (hk : k * 3000 < timeoutMs)
    (hfree : ∀ n < k, states n ≠ "failed" ∧ states n ≠ "destroyed")
    (hhit : states k = target) :
    waitForMachineState states target timeoutMs = .ok () := by
  have hfree2 : ∀ j, 0 ≤ j → j < 0 + k →
      states j ≠ target ∧ states j ≠ "failed" ∧ states j ≠ "destroyed" := by
    intro j _ hj
    obtain ⟨ha, hb⟩ := hfree j (by omega)
    refine ⟨?_, ha, hb⟩
    rcases htar with h | h <;> rw [h] <;> assumption
  rw [waitForMachineState,
    waitForMachineStateFrom_skip states target timeoutMs k 0 (by omega) hfree2,
    waitForMachineStateFrom]
  rw [dif_pos (by omega), if_pos (by simpa using hhit)]

/-- C9 witness: target `failed`, machine observed `failed` at poll 0. -/
theorem waitForMachineState_terminal_target_returns_ok_witness :
    waitForMachineState (fun _ => "failed") "failed" 120000 = .ok () := by
  exact waitForMachineState_terminal_target_returns_ok
    (fun _ => "failed") "failed" 120000 0 (Or.inl rfl) (by omega)
    (fun n hn => absurd hn (by omega)) rfl

/-- C4 counterexample: a Render-backed instance holding a service id but
no service name does not have both provider identifiers set, yet
`stopInstance` succeeds and mutates the status from `RUNNING` to
`STOPPED` — the Render lifecycle operations only require `containerId`. -/
theorem lifecycle_missing_identifiers_claim_cex :
    rowServiceIdOnly.containerName = none ∧
    rowServiceIdOnly.status = InstanceStatus.RUNNING ∧
    (stopInstanceRender 1 (.ok ()) dbServiceIdOnly).2 = .ok () ∧
    ((stopInstanceRender 1 (.ok ()) dbServiceIdOnly).1.inst.map
      (fun i => i.status)) = some InstanceStatus.STOPPED := by
  refine ⟨rfl, rfl, rfl, rfl⟩

/-- C4 (amended): each lifecycle operation fails fast with its
missing-identifiers error and leaves the store — in particular
`Instance.status` — untouched whenever the identifiers it requires are
falsy: both `containerId` and `containerName` for the Fly operations,
`containerId` alone for the Render operations.  `restartInstance` in
particular does not reach its intermediate `RESTARTING` write. -/
theorem lifecycle_missing_identifiers_fail_fast :
    (∀ (iid : Nat) (pc : Except String Unit) (db : DB) (i : InstanceRow),
      db.inst = some i → i.id = iid →
      (optStrFalsy i.containerId = true ∨ optStrFalsy i.containerName = true) →
      stopInstanceFly iid pc db = (db, .error "Instance missing Fly.io identifiers") ∧
      startInstanceFly iid pc db = (db, .error "Instance missing Fly.io identifiers") ∧
      restartInstanceFly iid pc db = (db, .error "Instance missing Fly.io identifiers")) ∧
    (∀ (iid : Nat) (pc : Except String Unit) (db : DB) (i : InstanceRow),
      db.inst = some i → i.id = iid →
      optStrFalsy i.containerId = true →
      stopInstanceRender iid pc db = (db, .error "Instance missing Render service ID") ∧
      startInstanceRender iid pc db = (db, .error "Instance missing Render service ID") ∧
      restartInstanceRender iid pc db = (db, .error "Instance missing Render service ID")) := by
  constructor
  · intro iid pc db i hdb hid hfal
    have hcond : (optStrFalsy i.containerId || optStrFalsy i.containerName) = true := by
      rcases hfal with h | h <;> simp [h]
    refine ⟨?_, ?_, ?_⟩ <;>
      simp [stopInstanceFly, startInstanceFly, restartInstanceFly, hdb, hid, hcond]
  · intro iid pc db i hdb hid hfal
    refine ⟨?_, ?_, ?_⟩ <;>
      simp [stopInstanceRender, startInstanceRender, restartInstanceRender, hdb, hid, hfal]

/-- C4 witness: the fail-fast behaviour at a row with no identifiers. -/
theorem lifecycle_missing_identifiers_fail_fast_witness :
    stopInstanceFly 2 (.ok ()) dbNoIds =
      (dbNoIds, .error "Instance missing Fly.io identifiers") ∧
    restartInstanceRender 2 (.ok ()) dbNoIds =
      (dbNoIds, .error "Instance missing Render service ID") := by
  obtain ⟨hfly, hrender⟩ := lifecycle_missing_identifiers_fail_fast
  refine ⟨(hfly 2 (.ok ()) dbNoIds rowNoIds rfl rfl (Or.inl rfl)).1,
    (hrender 2 (.ok ()) dbNoIds rowNoIds rfl rfl rfl).2.2⟩

/-- C8: `checkInstanceHealth` is a total function of the store and the
provider response (the whole body sits in a catch-all), returning
`false` and leaving the store untouched when the row is missing, when
the required identifiers are falsy, or when the provider call throws;
when the provider call succeeds it returns `true` exactly when the
provider reports the resource running (Fly: machine state `started` or
`running`; Render: not suspended with a URL present) and stamps
`lastHealthCheck` and the mapped `RUNNING`/`ERROR` status onto the row. -/
theorem checkInstanceHealth_never_propagates :
    (∀ (iid now : Nat) (g : Except String String) (logs : List DeploymentLog),
      checkInstanceHealthFly iid g now { inst := none, logs := logs } =
        ({ inst := none, logs := logs }, false)) ∧
    (∀ (iid now : Nat) (g : Except String String) (db : DB) (i : InstanceRow),
      db.inst = some i → i.id = iid →
      (optStrFalsy i.containerId = true ∨ optStrFalsy i.containerName = true) →
      checkInstanceHealthFly iid g now db = (db, false)) ∧
    (∀ (iid now : Nat) (m : String) (db : DB),
      checkInstanceHealthFly iid (.error m) now db = (db, false)) ∧
    (∀ (iid now : Nat) (st : String) (db : DB) (i : InstanceRow),
      db.inst = some i → i.id = iid →
      optStrFalsy i.containerId = false → optStrFalsy i.containerName = false →
      ((checkInstanceHealthFly iid (.ok st) now db).2 = true ↔
        (st = "started" ∨ st = "running")) ∧
      (checkInstanceHealthFly iid (.ok st) now db).1.inst =
        some { i with lastHealthCheck := some now,
                      status := if st = "started" ∨ st = "running"
                                then .RUNNING else .ERROR }) ∧
    (∀ (iid now : Nat) (m : String) (db : DB),
      checkInstanceHealthRender iid (.error m) now db = (db, false)) ∧
    (∀ (iid now : Nat) (suspended : String) (url : Option String)
        (db : DB) (i : InstanceRow),
      db.inst = some i → i.id = iid →
      optStrFalsy i.containerId = false →
      ((checkInstanceHealthRender iid (.ok (suspended, url)) now db).2 = true ↔
        (suspended = "not_suspended" ∧ url.isSome = true)) ∧
      (checkInstanceHealthRender iid (.ok (suspended, url)) now db).1.inst =
        some { i with lastHealthCheck := some now,
                      status := if suspended = "not_suspended" ∧ url.isSome = true
                                then .RUNNING else .ERROR }) := by
  refine ⟨?_, ?_, ?_, ?_, ?_, ?_⟩
  · intro iid now g logs
    rfl
  · intro iid now g db i hdb hid hfal
    have hcond : (optStrFalsy i.containerId || optStrFalsy i.containerName) = true := by
      rcases hfal with h | h <;> simp [h]
    cases g <;> simp [checkInstanceHealthFly, hdb, hid, hcond]
  · intro iid now m db
    rcases hdb : db.inst with _ | i
    · simp [checkInstanceHealthFly, hdb]
    · by_cases hid : i.id = iid <;>
        simp [checkInstanceHealthFly, hdb, hid]
  · intro iid now st db i hdb hid h1 h2
    constructor
    · by_cases hs : st = "started" <;> by_cases hr : st = "running" <;>
        simp [checkInstanceHealthFly, hdb, hid, h1, h2, hs, hr]
    · by_cases hs : st = "started" <;> by_cases hr : st = "running" <;>
        simp [checkInstanceHealthFly, DB.updateInst, hdb, hid, h1, h2, hs, hr]
  · intro iid now m db
    rcases hdb : db.inst with _ | i
    · simp [checkInstanceHealthRender, hdb]
    · by_cases hid : i.id = iid <;>
        simp [checkInstanceHealthRender, hdb, hid]
  · intro iid now suspended url db i hdb hid h1
    constructor
    · by_cases hs : suspended = "not_suspended" <;>
        rcases hu : url.isSome with _ | _ <;>
        simp [checkInstanceHealthRender, hdb, hid, h1, hs, hu]
    · by_cases hs : suspended = "not_suspended" <;>
        rcases hu : url.isSome with _ | _ <;>
        simp [checkInstanceHealthRender, DB.updateInst, hdb, hid, h1, hs, hu]

/-- C8 witness: the provider-throw and the healthy case, at concrete
inputs. -/
theorem checkInstanceHealth_never_propagates_witness :
    checkInstanceHealthFly 3 (.error "network down") 100 dbFullIds =
      (dbFullIds, false) ∧
    (checkInstanceHealthFly 3 (.ok "started") 100 dbFullIds).2 = true := by
  obtain ⟨_, _, herr, hok, _, _⟩ := checkInstanceHealth_never_propagates
  refine ⟨herr 3 100 "network down" dbFullIds, ?_⟩
  exact ((hok 3 100 "started" dbFullIds rowFullIds rfl rfl rfl rfl).1).mpr (Or.inl rfl)

/-- C6 counterexample: on the very input format documented inside
`listPendingDevices` (ISO timestamps, which contain colons), the
fallback parser does return two records, but the timestamp fields hold
only the text up to the first colon of the value — not the value from
the labeled line, because the split-at-colons element 1 cuts at every
colon. -/
theorem listPendingDevices_fallback_claim_cex :
    parsePendingDevicesFallback devicesCexStdout =
      [{ requestId := some "abc123", channel := some "whatsapp",
         identifier := some "+1234567890", timestamp := some "2026-02-06T10" },
       { requestId := some "def456", channel := some "telegram",
         identifier := some "+1987654321", timestamp := some "2026-02-07T11" }] ∧
    ("2026-02-06T10" : String) ≠ "2026-02-06T10:30:00Z" := by
  refine ⟨by decide, by decide⟩

/-- C6 (amended): on any non-JSON text splitting into exactly two
`Request ID:` blocks, each followed by its `Channel:`, `Identifier:` and
`Timestamp:` lines, the fallback parser returns exactly two records,
each field populated with the trimmed split-at-colons element 1 of its
labeled line — the text between the first and second colon, which equals
the full value exactly when the value contains no colon.  The line-level
facts (label tests and split results) enter as hypotheses on the
abstract lines. -/
theorem listPendingDevices_fallback_two_blocks
    (stdout r1 c1 i1 t1 r2 c2 i2 t2 L1 L2 L3 L4 L5 L6 L7 L8 : String)
    (hsplit : jsSplit stdout (Char.ofNat 10) = [L1, L2, L3, L4, L5, L6, L7, L8])
    (h1a : jsStartsWith L1 "Request ID:" = true)
    (h1v : splitVal L1 = some r1) (h1ne : r1 ≠ "")
    (h2a : jsStartsWith L2 "Request ID:" = false)
    (h2b : jsStartsWith L2 "Channel:" = true)
    (h2v : splitVal L2 = some c1)
    (h3a : jsStartsWith L3 "Request ID:" = false)
    (h3b : jsStartsWith L3 "Channel:" = false)
    (h3c : jsStartsWith L3 "Identifier:" = true)
    (h3v : splitVal L3 = some i1)
    (h4a : jsStartsWith L4 "Request ID:" = false)
    (h4b : jsStartsWith L4 "Channel:" = false)
    (h4c : jsStartsWith L4 "Identifier:" = false)
    (h4d : jsStartsWith L4 "Timestamp:" = true)
    (h4v : splitVal L4 = some t1)
    (h5a : jsStartsWith L5 "Request ID:" = true)
    (h5v : splitVal L5 = some r2) (h5ne : r2 ≠ "")
    (h6a : jsStartsWith L6 "Request ID:" = false)
    (h6b : jsStartsWith L6 "Channel:" = true)
    (h6v : splitVal L6 = some c2)
    (h7a : jsStartsWith L7 "Request ID:" = false)
    (h7b : jsStartsWith L7 "Channel:" = false)
    (h7c : jsStartsWith L7 "Identifier:" = true)
    (h7v : splitVal L7 = some i2)
    (h8a : jsStartsWith L8 "Request ID:" = false)
    (h8b : jsStartsWith L8 "Channel:" = false)
    (h8c : jsStartsWith L8 "Identifier:" = false)
    (h8d : jsStartsWith L8 "Timestamp:" = true)
    (h8v : splitVal L8 = some t2) :
    parsePendingDevicesFallback stdout =
      [{ requestId := some r1, channel := some c1,
         identifier := some i1, timestamp := some t1 },
       { requestId := some r2, channel := some c2,
         identifier := some i2, timestamp := some t2 }] := by
  have h1e : r1.isEmpty = false := by
    rcases h : r1.isEmpty with _ | _
    · rfl
    · exact absurd ((String.isEmpty_iff r1).mp h) h1ne
  have h5e : r2.isEmpty = false := by
    rcases h : r2.isEmpty with _ | _
    · rfl
    · exact absurd ((String.isEmpty_iff r2).mp h) h5ne
  rw [parsePendingDevicesFallback, hsplit]
  simp only [List.foldl, devicesStep, flushReady, PendingDevice.empty,
    h1a, h1v, h2a, h2b, h2v, h3a, h3b, h3c, h3v, h4a, h4b, h4c, h4d, h4v,
    h5a, h5v, h6a, h6b, h6v, h7a, h7b, h7c, h7v, h8a, h8b, h8c, h8d, h8v,
    h1e, h5e, Bool.false_eq_true, if_false, if_true, Bool.not_false,
    Bool.not_true]
  simp [h1e, h5e]

/-- C6 witness: the line-level hypotheses discharged on a concrete
two-block listing with colon-free values. -/
theorem listPendingDevices_fallback_two_blocks_witness :
    parsePendingDevicesFallback devicesWitnessStdout =
      [{ requestId := some "abc123", channel := some "whatsapp",
         identifier := some "+1234567890", timestamp := some "day1" },
       { requestId := some "def456", channel := some "telegram",
         identifier := some "+1987654321", timestamp := some "day2" }] := by
  exact listPendingDevices_fallback_two_blocks devicesWitnessStdout
    "abc123" "whatsapp" "+1234567890" "day1" "def456" "telegram" "+1987654321" "day2"
    "Request ID: abc123" "Channel: whatsapp" "Identifier: +1234567890" "Timestamp: day1"
    "Request ID: def456" "Channel: telegram" "Identifier: +1987654321" "Timestamp: day2"
    (by decide) (by decide) (by decide) (by decide) (by decide) (by decide)
    (by decide) (by decide) (by decide) (by decide) (by decide) (by decide)
    (by decide) (by decide) (by decide) (by decide) (by decide) (by decide)
    (by decide) (by decide) (by decide) (by decide) (by decide) (by decide)
    (by decide) (by decide) (by decide) (by decide) (by decide) (by decide)
    (by decide)

/-- When the user has no prior row, or cleanup completed, the store
entering the deployment core has no row and unchanged logs. -/
theorem flyCleanup_eq (b : Bool) (db : DB) (h : db.inst = none ∨ b = true) :
    flyCleanup b db = { inst := none, logs := db.logs } := by
  obtain ⟨io, logs⟩ := db
  rcases hio : io with _ | ex
  · subst hio
    rfl
  · subst hio
    rcases h with h | h
    · simp at h
    · subst h
      rfl

/-- Any failing step of the Fly deployment core yields the wrapped
re-raised error, a row marked `ERROR`, and a trailing `FAILED` log row
carrying the message of the step. -/
theorem deployFlyCore_err (env : FlyEnv) (userId : String)
    (logs : List DeploymentLog) (m : String)
    (hf : firstFailureFly env = some m) :
    ∃ db', deployInstanceFlyCore env userId { inst := none, logs := logs } =
        (db', .error ("Deployment failed: " ++ m)) ∧
      db'.inst.map (fun i => i.status) = some InstanceStatus.ERROR ∧
      db'.logs.getLast? =
        some ⟨env.newId, "DEPLOY", "FAILED", "Deployment failed", some m⟩ := by
  rw [firstFailureFly] at hf
  simp only [deployInstanceFlyCore]
  rcases h1 : env.verifyAccess 0 with m1 | u1 <;> simp only [h1] at hf ⊢
  · injection hf with hm
    subst hm
    exact ⟨_, rfl, by simp [flyFailState, DB.updateInst, DB.addLog],
      by simp [flyFailState, DB.updateInst, DB.addLog]⟩
  rcases h2 : env.createApp 0 with m2 | u2 <;> simp only [h2] at hf ⊢
  · injection hf with hm
    subst hm
    exact ⟨_, rfl, by simp [flyFailState, DB.updateInst, DB.addLog],
      by simp [flyFailState, DB.updateInst, DB.addLog]⟩
  rcases h3 : env.setSecrets 0 with m3 | u3 <;> simp only [h3] at hf ⊢
  · injection hf with hm
    subst hm
    exact ⟨_, rfl, by simp [flyFailState, DB.updateInst, DB.addLog],
      by simp [flyFailState, DB.updateInst, DB.addLog]⟩
  rcases h4 : env.createMachine 0 with m4 | mid <;> simp only [h4] at hf ⊢
  · injection hf with hm
    subst hm
    exact ⟨_, rfl, by simp [flyFailState, DB.updateInst, DB.addLog],
      by simp [flyFailState, DB.updateInst, DB.addLog]⟩
  rcases h5 : env.waitStarted 0 with m5 | u5 <;> simp only [h5] at hf ⊢
  · injection hf with hm
    subst hm
    exact ⟨_, rfl, by simp [flyFailState, DB.updateInst, DB.addLog],
      by simp [flyFailState, DB.updateInst, DB.addLog]⟩
  rcases h6 : env.allocateIp 0 with m6 | u6 <;> simp only [h6] at hf ⊢
  · injection hf with hm
    subst hm
    exact ⟨_, rfl, by simp [flyFailState, DB.updateInst, DB.addLog],
      by simp [flyFailState, DB.updateInst, DB.addLog]⟩
  exact absurd hf (by simp)

/-- When no step fails, the Fly deployment core returns without
throwing, for every outcome of the locally-caught health probe. -/
theorem deployFlyCore_ok (env : FlyEnv) (userId : String)
    (logs : List DeploymentLog)
    (hf : firstFailureFly env = none) :
    ∃ db' r, deployInstanceFlyCore env userId { inst := none, logs := logs } =
      (db', .ok r) := by
  rw [firstFailureFly] at hf
  simp only [deployInstanceFlyCore]
  rcases h1 : env.verifyAccess 0 with m1 | u1 <;> simp only [h1] at hf ⊢
  · exact absurd hf (by simp)
  rcases h2 : env.createApp 0 with m2 | u2 <;> simp only [h2] at hf ⊢
  · exact absurd hf (by simp)
  rcases h3 : env.setSecrets 0 with m3 | u3 <;> simp only [h3] at hf ⊢
  · exact absurd hf (by simp)
  rcases h4 : env.createMachine 0 with m4 | mid <;> simp only [h4] at hf ⊢
  · exact absurd hf (by simp)
  rcases h5 : env.waitStarted 0 with m5 | u5 <;> simp only [h5] at hf ⊢
  · exact absurd hf (by simp)
  rcases h6 : env.allocateIp 0 with m6 | u6 <;> simp only [h6] at hf ⊢
  · exact absurd hf (by simp)
  exact ⟨_, _, rfl⟩

/-- Inversion of a non-throwing Fly deployment: the final row and the
returned status string are both determined by the health probe. -/
theorem deployFly_ok_inv (env : FlyEnv) (userId : String) (db db' : DB)
    (r : FlyDeploymentResult)
    (h : deployInstanceFly env userId db = (db', .ok r)) :
    (∃ i, db'.inst = some i ∧
      (i.status = InstanceStatus.RUNNING ∨ i.status = InstanceStatus.ERROR) ∧
      (i.status = InstanceStatus.RUNNING ↔ env.healthProbe 0 = .ok true)) ∧
    (r.status = "RUNNING" ↔ env.healthProbe 0 = .ok true) ∧
    (r.status = "RUNNING" ∨ r.status = "ERROR") := by
  rw [deployInstanceFly] at h
  generalize flyCleanup env.cleanupOk db = db1 at h
  obtain ⟨io, logs⟩ := db1
  rcases hio : io with _ | ex
  · subst hio
    simp only [deployInstanceFlyCore] at h
    rcases h1 : env.verifyAccess 0 with m1 | u1 <;> simp only [h1] at h
    · simp at h
    rcases h2 : env.createApp 0 with m2 | u2 <;> simp only [h2] at h
    · simp at h
    rcases h3 : env.setSecrets 0 with m3 | u3 <;> simp only [h3] at h
    · simp at h
    rcases h4 : env.createMachine 0 with m4 | mid <;> simp only [h4] at h
    · simp at h
    rcases h5 : env.waitStarted 0 with m5 | u5 <;> simp only [h5] at h
    · simp at h
    rcases h6 : env.allocateIp 0 with m6 | u6 <;> simp only [h6] at h
    · simp at h
    rcases hp : env.healthProbe 0 with mp | b <;> simp only [hp] at h
    · simp only [Prod.mk.injEq, Except.ok.injEq] at h
      obtain ⟨hdb', hr⟩ := h
      subst hdb'
      subst hr
      refine ⟨⟨_, rfl, ?_, ?_⟩, ?_, ?_⟩ <;> simp [hp]
    · rcases b with _ | _
      · simp only [Prod.mk.injEq, Except.ok.injEq] at h
        obtain ⟨hdb', hr⟩ := h
        subst hdb'
        subst hr
        refine ⟨⟨_, rfl, ?_, ?_⟩, ?_, ?_⟩ <;> simp [hp]
      · simp only [Prod.mk.injEq, Except.ok.injEq] at h
        obtain ⟨hdb', hr⟩ := h
        subst hdb'
        subst hr
        refine ⟨⟨_, rfl, ?_, ?_⟩, ?_, ?_⟩ <;> simp [hp]
  · subst hio
    simp [deployInstanceFlyCore] at h

/-- Render analogue of `deployFlyCore_err`. -/
theorem deployRenderCore_err (env : RenderEnv) (userId : String)
    (logs : List DeploymentLog) (m : String)
    (hf : firstFailureRender env = some m) :
    ∃ db', deployInstanceRenderCore env userId { inst := none, logs := logs } =
        (db', .error ("Deployment failed: " ++ m)) ∧
      db'.inst.map (fun i => i.status) = some InstanceStatus.ERROR ∧
      db'.logs.getLast? =
        some ⟨env.newId, "DEPLOY", "FAILED", "Deployment failed", some m⟩ := by
  rw [firstFailureRender] at hf
  simp only [deployInstanceRenderCore]
  rcases h1 : env.createService 0 with m1 | sid <;> simp only [h1] at hf ⊢
  · injection hf with hm
    subst hm
    exact ⟨_, rfl, by simp [renderFailState, DB.updateInst, DB.addLog],
      by simp [renderFailState, DB.updateInst, DB.addLog]⟩
  rcases h2 : renderPollUrl env.getService 0 60 with m2 | uo <;>
    simp only [h2] at hf ⊢
  · injection hf with hm
    subst hm
    exact ⟨_, rfl, by simp [renderFailState, DB.updateInst, DB.addLog],
      by simp [renderFailState, DB.updateInst, DB.addLog]⟩
  exact absurd hf (by simp)

/-- Render analogue of `deployFlyCore_ok`. -/
theorem deployRenderCore_ok (env : RenderEnv) (userId : String)
    (logs : List DeploymentLog)
    (hf : firstFailureRender env = none) :
    ∃ db' r, deployInstanceRenderCore env userId { inst := none, logs := logs } =
      (db', .ok r) := by
  rw [firstFailureRender] at hf
  simp only [deployInstanceRenderCore]
  rcases h1 : env.createService 0 with m1 | sid <;> simp only [h1] at hf ⊢
  · exact absurd hf (by simp)
  rcases h2 : renderPollUrl env.getService 0 60 with m2 | uo <;>
    simp only [h2] at hf ⊢
  · exact absurd hf (by simp)
  exact ⟨_, _, rfl⟩

/-- Render analogue of `deployFly_ok_inv`. -/
theorem deployRender_ok_inv (env : RenderEnv) (userId : String) (db db' : DB)
    (r : RenderDeploymentResult)
    (h : deployInstanceRender env userId db = (db', .ok r)) :
    (∃ i, db'.inst = some i ∧
      (i.status = InstanceStatus.RUNNING ∨ i.status = InstanceStatus.ERROR) ∧
      (i.status = InstanceStatus.RUNNING ↔ env.healthProbe 0 = .ok true)) ∧
    (r.status = "RUNNING" ↔ env.healthProbe 0 = .ok true) ∧
    (r.status = "RUNNING" ∨ r.status = "ERROR") := by
  rw [deployInstanceRender] at h
  generalize flyCleanup env.cleanupOk db = db1 at h
  obtain ⟨io, logs⟩ := db1
  rcases hio : io with _ | ex
  · subst hio
    simp only [deployInstanceRenderCore] at h
    rcases h1 : env.createService 0 with m1 | sid <;> simp only [h1] at h
    · simp at h
    rcases h2 : renderPollUrl env.getService 0 60 with m2 | uo <;>
      simp only [h2] at h
    · simp at h
    rcases hp : env.healthProbe 0 with mp | b <;> simp only [hp] at h
    · simp only [Prod.mk.injEq, Except.ok.injEq] at h
      obtain ⟨hdb', hr⟩ := h
      subst hdb'
      subst hr
      refine ⟨⟨_, rfl, ?_, ?_⟩, ?_, ?_⟩ <;> simp [hp]
    · rcases b with _ | _
      · simp only [Prod.mk.injEq, Except.ok.injEq] at h
        obtain ⟨hdb', hr⟩ := h
        subst hdb'
        subst hr
        refine ⟨⟨_, rfl, ?_, ?_⟩, ?_, ?_⟩ <;> simp [hp]
      · simp only [Prod.mk.injEq, Except.ok.injEq] at h
        obtain ⟨hdb', hr⟩ := h
        subst hdb'
        subst hr
        refine ⟨⟨_, rfl, ?_, ?_⟩, ?_, ?_⟩ <;> simp [hp]
  · subst hio
    simp [deployInstanceRenderCore] at h

/-- C1: on both providers, whenever `deployInstance` returns without
throwing, the user row it leaves behind has status `RUNNING` or `ERROR`
(never `DEPLOYING`), with `RUNNING` exactly when the health probe
returned a 2xx response (`.ok true`); the returned status string agrees
with that; and when no other step fails, the deployment returns without
throwing for every probe outcome, including a thrown fetch. -/
theorem deployInstance_final_status_matches_probe :
    (∀ (env : FlyEnv) (userId : String) (db db' : DB) (r : FlyDeploymentResult),
      deployInstanceFly env userId db = (db', .ok r) →
      (∃ i, db'.inst = some i ∧
        (i.status = InstanceStatus.RUNNING ∨ i.status = InstanceStatus.ERROR) ∧
        (i.status = InstanceStatus.RUNNING ↔ env.healthProbe 0 = .ok true)) ∧
      (r.status = "RUNNING" ↔ env.healthProbe 0 = .ok true) ∧
      (r.status = "RUNNING" ∨ r.status = "ERROR")) ∧
    (∀ (env : FlyEnv) (userId : String) (db : DB),
      (db.inst = none ∨ env.cleanupOk = true) →
      firstFailureFly env = none →
      ∃ db' r, deployInstanceFly env userId db = (db', .ok r)) ∧
    (∀ (env : RenderEnv) (userId : String) (db db' : DB)
        (r : RenderDeploymentResult),
      deployInstanceRender env userId db = (db', .ok r) →
      (∃ i, db'.inst = some i ∧
        (i.status = InstanceStatus.RUNNING ∨ i.status = InstanceStatus.ERROR) ∧
        (i.status = InstanceStatus.RUNNING ↔ env.healthProbe 0 = .ok true)) ∧
      (r.status = "RUNNING" ↔ env.healthProbe 0 = .ok true) ∧
      (r.status = "RUNNING" ∨ r.status = "ERROR")) ∧
    (∀ (env : RenderEnv) (userId : String) (db : DB),
      (db.inst = none ∨ env.cleanupOk = true) →
      firstFailureRender env = none →
      ∃ db' r, deployInstanceRender env userId db = (db', .ok r)) := by
  refine ⟨deployFly_ok_inv, ?_, deployRender_ok_inv, ?_⟩
  · intro env userId db hdb hf
    rw [deployInstanceFly, flyCleanup_eq env.cleanupOk db hdb]
    exact deployFlyCore_ok env userId db.logs hf
  · intro env userId db hdb hf
    rw [deployInstanceRender, flyCleanup_eq env.cleanupOk db hdb]
    exact deployRenderCore_ok env userId db.logs hf

/-- C1 witness: with every provider step succeeding and the health probe
throwing, both deployments return without throwing, on an empty store. -/
theorem deployInstance_final_status_matches_probe_witness :
    (∃ db' r, deployInstanceFly flyEnvProbeThrows "alice-w01" emptyDb =
      (db', .ok r)) ∧
    (∃ db' r, deployInstanceRender renderEnvAllOk "carol-w02" emptyDb =
      (db', .ok r)) := by
  obtain ⟨_, hfly, _, hrender⟩ := deployInstance_final_status_matches_probe
  exact ⟨hfly flyEnvProbeThrows "alice-w01" emptyDb (Or.inl rfl) rfl,
    hrender renderEnvAllOk "carol-w02" emptyDb (Or.inl rfl) rfl⟩

/-- C2: on both providers, when any deployment step whose exception
reaches the catch handler fails first with message `m`, `deployInstance`
sets the row status to `ERROR`, appends a `FAILED` deployment-log row
carrying `m`, and re-raises `Deployment failed: m`; and the deployment
is invariant under discarding all second-and-later invocation outcomes
of its step oracles, so no step is ever retried (the Render URL poll
loop, repeated by design, polls distinct attempts and is left intact). -/
theorem deployInstance_failure_marks_error_and_reraises :
    (∀ (env : FlyEnv) (userId : String) (db : DB) (m : String),
      (db.inst = none ∨ env.cleanupOk = true) →
      firstFailureFly env = some m →
      ∃ db', deployInstanceFly env userId db =
          (db', .error ("Deployment failed: " ++ m)) ∧
        db'.inst.map (fun i => i.status) = some InstanceStatus.ERROR ∧
        db'.logs.getLast? =
          some ⟨env.newId, "DEPLOY", "FAILED", "Deployment failed", some m⟩) ∧
    (∀ (env : RenderEnv) (userId : String) (db : DB) (m : String),
      (db.inst = none ∨ env.cleanupOk = true) →
      firstFailureRender env = some m →
      ∃ db', deployInstanceRender env userId db =
          (db', .error ("Deployment failed: " ++ m)) ∧
        db'.inst.map (fun i => i.status) = some InstanceStatus.ERROR ∧
        db'.logs.getLast? =
          some ⟨env.newId, "DEPLOY", "FAILED", "Deployment failed", some m⟩) ∧
    (∀ (env : FlyEnv) (userId : String) (db : DB),
      deployInstanceFly (FlyEnv.firstCallOnly env) userId db =
        deployInstanceFly env userId db) ∧
    (∀ (env : RenderEnv) (userId : String) (db : DB),
      deployInstanceRender (RenderEnv.firstCallOnly env) userId db =
        deployInstanceRender env userId db) := by
  refine ⟨?_, ?_, fun env userId db => rfl, fun env userId db => rfl⟩
  · intro env userId db m hdb hf
    rw [deployInstanceFly, flyCleanup_eq env.cleanupOk db hdb]
    exact deployFlyCore_err env userId db.logs m hf
  · intro env userId db m hdb hf
    rw [deployInstanceRender, flyCleanup_eq env.cleanupOk db hdb]
    exact deployRenderCore_err env userId db.logs m hf

/-- C2 witness: a failing machine creation on Fly and a failing service
creation on Render, on an empty store. -/
theorem deployInstance_failure_marks_error_and_reraises_witness :
    (∃ db', deployInstanceFly flyEnvMachineFails "alice-w03" emptyDb =
        (db', .error ("Deployment failed: " ++ "machine boom")) ∧
      db'.inst.map (fun i => i.status) = some InstanceStatus.ERROR ∧
      db'.logs.getLast? =
        some ⟨flyEnvMachineFails.newId, "DEPLOY", "FAILED", "Deployment failed",
          some "machine boom"⟩) ∧
    (∃ db', deployInstanceRender renderEnvCreateFails "carol-w04" emptyDb =
        (db', .error ("Deployment failed: " ++ "render boom")) ∧
      db'.inst.map (fun i => i.status) = some InstanceStatus.ERROR ∧
      db'.logs.getLast? =
        some ⟨renderEnvCreateFails.newId, "DEPLOY", "FAILED", "Deployment failed",
          some "render boom"⟩) := by
  obtain ⟨hfly, hrender, _, _⟩ := deployInstance_failure_marks_error_and_reraises
  exact ⟨hfly flyEnvMachineFails "alice-w03" emptyDb "machine boom" (Or.inl rfl) rfl,
    hrender renderEnvCreateFails "carol-w04" emptyDb "render boom" (Or.inl rfl) rfl⟩
